import Mathlib

/-!
Shallow embedding of the AI WhatsApp client backend (Python) used for
verification of its natural-language specification.

Covered source files:
  app/services/llm_service.py          (provider registry, selection, failover)
  app/services/conversation_service.py (prompt build, response post-processing,
                                        fallback, best-effort persistence)
  app/services/vector_service.py       (hash-based embedding, delete no-op)
  app/services/character_service.py    (add_character_memory)
  app/models/conversation.py           (pydantic data model)

Conventions of the embedding:
  - Python floats are modelled as rationals where only constants and
    comparisons occur.
  - Python strings are modelled by Lean strings; slicing, strip and
    concatenation are embedded as explicit functions over the character list.
  - Exceptions are modelled with Except; code that catches every exception
    becomes a total function matching on the Except value.
  - External library calls (hashlib.sha256, float32 decoding, the Pinecone
    index, the LLM HTTP clients, random.choice) are modelled as explicit
    function parameters or oracle arguments, since they are outside the
    repository.
-/

namespace WhatsAppAI

/-! ## Python string primitives -/

/-- Python whitespace characters recognised by str.strip. -/
def isPyWhitespace (c : Char) : Bool :=
  c = ' ' || c = '\t' || c = '\n' || c = '\x0d' || c = '\x0b' || c = '\x0c'

/-- Embedding of Python str.strip(): drop whitespace from both ends. -/
def pyStrip (s : String) : String :=
  ⟨(((s.data.dropWhile isPyWhitespace).reverse.dropWhile isPyWhitespace).reverse)⟩

/-- Embedding of the Python slice s[:n] (first n characters). -/
def pyTake (s : String) (n : Nat) : String :=
  ⟨s.data.take n⟩

/-- Embedding of the Python slice s[n:] (drop the first n characters). -/
def pyDrop (s : String) (n : Nat) : String :=
  ⟨s.data.drop n⟩

/-- Embedding of the Python slice l[-n:] for n > 0: the last n elements
(all of them when the list is shorter than n). -/
def pyLastSlice (n : Nat) (l : List α) : List α :=
  l.drop (l.length - n)

/-- Embedding of Python `opt or default` on optional strings: None and the
empty string are falsy. -/
def pyOrStr (o : Option String) (d : String) : String :=
  match o with
  | none => d
  | some s => if s = "" then d else s

/-! ## Data model (app/models/conversation.py) -/

/-- Message types (models/conversation.py, class MessageType). -/
inductive MessageType
  | TEXT | IMAGE | AUDIO | VIDEO | DOCUMENT | EMOJI | SYSTEM
deriving DecidableEq, Repr

/-- Conversation moods (models/conversation.py, class ConversationMood). -/
inductive ConversationMood
  | CASUAL | FORMAL | HUMOROUS | SERIOUS | EXCITED | CALM | DEBATE | GOSSIP | PLANNING
deriving DecidableEq, Repr

/-- The .value string of a ConversationMood (the str enum payload). -/
def ConversationMood.value : ConversationMood → String
  | .CASUAL => "CASUAL"
  | .FORMAL => "FORMAL"
  | .HUMOROUS => "HUMOROUS"
  | .SERIOUS => "SERIOUS"
  | .EXCITED => "EXCITED"
  | .CALM => "CALM"
  | .DEBATE => "DEBATE"
  | .GOSSIP => "GOSSIP"
  | .PLANNING => "PLANNING"

/-- Character model (models/conversation.py). UUIDs are modelled as strings,
datetimes as integer timestamps. -/
structure Character where
  id : String
  name : String
  personality_traits : Option String := none
  system_prompt : Option String := none
  avatar_url : Option String := none
  speaking_style : Option String := none
  background : Option String := none
  is_active : Bool := true
  created_at : Int := 0
deriving DecidableEq, Repr

/-- Group model (models/conversation.py). -/
structure Group where
  id : String
  name : String
  description : Option String := none
  is_active : Bool := true
  created_at : Int := 0
deriving DecidableEq, Repr

/-- Message model (models/conversation.py). -/
structure Message where
  id : String
  group_id : String
  character_id : String
  content : String
  message_type : MessageType := MessageType.TEXT
  timestamp : Int := 0
  is_ai_generated : Bool := false
deriving DecidableEq, Repr

/-- ConversationContext (models/conversation.py). additional_context is a
Dict preserving insertion order, modelled as an association list whose
values are rendered strings. -/
structure ConversationContext where
  group : Group
  current_character : Character
  recent_messages : List Message := []
  active_characters : List Character := []
  additional_context : List (String × String) := []
  current_topic : Option String := none
  mood : Option ConversationMood := some ConversationMood.CASUAL
deriving DecidableEq, Repr

/-- The metadata dict written on an AIResponse by this code base.  The code
only ever sets the keys "provider", "usage", "finish_reason" (in
_process_response) and "fallback" (in _create_fallback_response); `fallback`
is false exactly when the key is absent. -/
structure AIMetadata where
  provider : Option String := none
  usage : Option String := none
  finish_reason : Option String := none
  fallback : Bool := false
deriving DecidableEq, Repr

/-- AIResponse (models/conversation.py).  confidence is an optional float,
modelled as an optional rational. -/
structure AIResponse where
  content : String
  message_type : MessageType := MessageType.TEXT
  confidence : Option ℚ := none
  model_used : Option String := none
  response_time_ms : Option Int := none
  metadata : AIMetadata := {}
  is_interruption : Bool := false
  reasoning : Option String := none
deriving DecidableEq, Repr

/-- CharacterMemory (models/conversation.py).  importance_score is a float
with pydantic constraints ge=0.0, le=1.0. -/
structure CharacterMemory where
  character_id : String
  memory_type : String
  content : String
  importance_score : ℚ
  created_at : Int := 0
  metadata : List (String × String) := []
deriving DecidableEq, Repr

/-- Pydantic validating constructor for CharacterMemory: constructing a model
whose importance_score violates Field(ge=0.0, le=1.0) raises a
ValidationError, embedded as none. -/
def mkCharacterMemory (character_id memory_type content : String)
    (importance_score : ℚ) (created_at : Int)
    (metadata : List (String × String)) : Option CharacterMemory :=
  if 0 ≤ importance_score ∧ importance_score ≤ 1 then
    some { character_id := character_id, memory_type := memory_type,
           content := content, importance_score := importance_score,
           created_at := created_at, metadata := metadata }
  else
    none

/-- LLMRequest (models/conversation.py), the fields set by the
conversation service. -/
structure LLMRequest where
  prompt : String
  max_tokens : Option Nat := none
  temperature : ℚ := 7/10
  top_p : ℚ := 1
deriving DecidableEq, Repr

/-- LLMResponse (models/conversation.py).  usage is an optional dict,
modelled as an opaque optional string payload; the metadata dict is modelled
by the two keys this code base reads from it ("provider" and "reasoning"). -/
structure LLMResponse where
  content : String
  model : String
  usage : Option String := none
  finish_reason : Option String := none
  response_time_ms : Int
  provider : Option String := none
  reasoning : Option String := none
deriving DecidableEq, Repr

/-! ## LLM service (app/services/llm_service.py)

An adapter (provider) is modelled by its observable behaviour in one
request: `healthy` is the value of is_healthy() (a local liveness probe that
does not change during the call) and `genOk` tells whether
generate_response succeeds or raises.  `id` models Python object identity,
used by the `provider != self.current_provider` comparison. -/

structure Adapter where
  id : Nat
  healthy : Bool
  genOk : Bool
deriving DecidableEq, Repr

/-- Outcome of LLMService.generate_response. -/
inductive GenOutcome
  | success (providerId : Nat)
  | noHealthyProvider
  | allProvidersFailed
deriving DecidableEq, Repr

/-- LLMService._select_healthy_provider (llm_service.py lines 372-384):
scan the ordered provider list and pick the first healthy one; if none is
healthy the current provider becomes None. -/
def selectHealthyProvider : List Adapter → Option Adapter
  | [] => none
  | p :: ps => if p.healthy then some p else selectHealthyProvider ps

/-- The failover loop of LLMService.generate_response (llm_service.py lines
347-358): iterate all providers; skip the one equal to the *current*
current_provider; for a healthy one, promote it to current and call
generate; if that call raises, continue with the next provider (the current
pointer now being the promoted provider).  Returns the ids of the adapters
on which generate was invoked, in order, and the outcome. -/
def failoverLoop : List Adapter → Adapter → List Nat × GenOutcome
  | [], _ => ([], GenOutcome.allProvidersFailed)
  | p :: ps, cur =>
    if p.id = cur.id then
      failoverLoop ps cur
    else if p.healthy then
      if p.genOk then
        ([p.id], GenOutcome.success p.id)
      else
        let r := failoverLoop ps p
        (p.id :: r.1, r.2)
    else
      failoverLoop ps cur

/-- LLMService.generate_response (llm_service.py lines 335-360): if there is
no current provider, re-run selection; if still none, raise "No healthy LLM
providers available"; otherwise call generate on the current provider and on
failure run the failover loop.  Returns the ids of the adapters on which
generate was invoked, in order, and the outcome. -/
def generateResponseLLM (providers : List Adapter) (current : Option Adapter) :
    List Nat × GenOutcome :=
  let cur := match current with
    | some c => some c
    | none => selectHealthyProvider providers
  match cur with
  | none => ([], GenOutcome.noHealthyProvider)
  | some c =>
    if c.genOk then
      ([c.id], GenOutcome.success c.id)
    else
      let r := failoverLoop providers c
      (c.id :: r.1, r.2)

/-! ## Conversation service (app/services/conversation_service.py) -/

/-- One rendered transcript line: f"{msg.character_id}: {msg.content}\n"
(conversation_service.py line 111). -/
def renderMsg (m : Message) : String :=
  m.character_id ++ ": " ++ m.content ++ "\n"

/-- Concatenation of rendered transcript lines (specification-side helper
describing what the transcript loop accumulates). -/
def renderMsgs : List Message → String
  | [] => ""
  | m :: ms => renderMsg m ++ renderMsgs ms

/-- The recent-messages block of _build_prompt (conversation_service.py lines
106-111): empty when there are no recent messages, otherwise a header
followed by the rendering of recent_messages[-10:] accumulated by string
concatenation. -/
def messagesContext (ctx : ConversationContext) : String :=
  match ctx.recent_messages with
  | [] => ""
  | _ =>
    (pyLastSlice 10 ctx.recent_messages).foldl
      (fun acc m => acc ++ renderMsg m) "\nRecent conversation:\n"

/-- The character identity block of _build_prompt (lines 83-95). -/
def characterContext (c : Character) : String :=
  "\nYou are " ++ c.name ++ ", a " ++ pyOrStr c.personality_traits "" ++ " character.\n"
    ++ pyOrStr c.system_prompt "" ++ "\n\nSpeaking style: " ++ pyOrStr c.speaking_style ""
    ++ "\nBackground: " ++ pyOrStr c.background "" ++ "\n"

/-- The scene block of _build_prompt (lines 97-104). -/
def conversationContextBlock (ctx : ConversationContext) : String :=
  "\nYou are participating in a group chat with the following members:\n"
    ++ String.intercalate ", " (ctx.active_characters.map Character.name)
    ++ "\n\nCurrent conversation mood: "
    ++ (match ctx.mood with | some m => m.value | none => "CASUAL")
    ++ "\nCurrent topic: " ++ pyOrStr ctx.current_topic "General conversation" ++ "\n"

/-- The additional-context block of _build_prompt (lines 113-118). -/
def additionalContextBlock (ctx : ConversationContext) : String :=
  match ctx.additional_context with
  | [] => ""
  | kvs => kvs.foldl (fun acc kv => acc ++ kv.1 ++ ": " ++ kv.2 ++ "\n")
      "\nAdditional context:\n"

/-- ConversationService._build_prompt (lines 79-141): assemble the blocks in
fixed order into one string and strip surrounding whitespace. -/
def buildPrompt (ctx : ConversationContext) : String :=
  pyStrip
    ("\n" ++ characterContext ctx.current_character
      ++ "\n\n" ++ conversationContextBlock ctx
      ++ "\n\n" ++ messagesContext ctx
      ++ "\n\n" ++ additionalContextBlock ctx
      ++ "\n\nInstructions:\n- Respond naturally as " ++ ctx.current_character.name
      ++ "\n- Keep your response conversational and engaging"
      ++ "\n- Stay in character based on your personality and background"
      ++ "\n- Respond to the conversation context appropriately"
      ++ "\n- Keep responses concise but meaningful"
      ++ "\n- Use your speaking style consistently"
      ++ "\n\nRespond now:\n")

/-- The cleaning phase of _process_response (lines 146-151): strip
whitespace, then remove a leading "<character-name>:" echo and strip
again. -/
def cleanContent (characterName content : String) : String :=
  let c := pyStrip content
  let pre := characterName ++ ":"
  if c.data.take pre.data.length = pre.data then
    pyStrip (pyDrop c pre.data.length)
  else
    c

/-- ConversationService._process_response (lines 143-175): clean the raw LLM
content, truncate it at maxLen characters adding "..." when it exceeds the
configured maximum, and build the AIResponse.  The conditional assignment of
the optional reasoning field (lines 172-173, with empty strings falsy) is
inlined into the structure literal. -/
def processResponse (llm : LLMResponse) (characterName : String) (maxLen : Nat) : AIResponse :=
  let content := cleanContent characterName llm.content
  let content := if maxLen < content.length then pyTake content maxLen ++ "..." else content
  { content := content
    message_type := MessageType.TEXT
    confidence := some (4/5)
    model_used := some llm.model
    response_time_ms := some llm.response_time_ms
    metadata := { provider := some (llm.provider.getD "unknown")
                  usage := llm.usage
                  finish_reason := llm.finish_reason
                  fallback := false }
    is_interruption := false
    reasoning := match llm.reasoning with
      | some r => if r = "" then none else some r
      | none => none }

/-- The fixed stock replies of _create_fallback_response (lines 270-279). -/
def fallbackResponses : List String :=
  [ "Hmm, let me think about that...",
    "That's an interesting point!",
    "I'm not sure what to say about that.",
    "Can you tell me more about that?",
    "That's something to consider...",
    "I see what you mean.",
    "That's a good question!",
    "Let me process that for a moment..." ]

/-- ConversationService._create_fallback_response (lines 268-291):
random.choice is modelled by an arbitrary index pick, reduced modulo the
length of the stock-reply list. -/
def createFallbackResponse (pick : Nat) : AIResponse :=
  { content := fallbackResponses.getD (pick % fallbackResponses.length) ""
    message_type := MessageType.TEXT
    confidence := some (1/10)
    model_used := some "fallback"
    response_time_ms := some 0
    metadata := { provider := none, usage := none, finish_reason := none, fallback := true }
    is_interruption := false
    reasoning := none }

/-- The body of _store_conversation_context before its exception handler:
persistence (embedding generation, memory upsert, summary update) either
succeeds or raises, modelled by the persistOk oracle. -/
def storeAttempt (persistOk : Bool) : Except String Unit :=
  if persistOk then Except.ok () else Except.error "Failed to store conversation context"

/-- ConversationService._store_conversation_context (lines 177-203): the
whole body is wrapped in try/except, so persistence errors are swallowed and
the function always returns unit. -/
def storeConversationContext (persistOk : Bool) : Unit :=
  match storeAttempt persistOk with
  | Except.ok _ => ()
  | Except.error _ => ()

/-- The body of ConversationService.generate_response inside its try block
(lines 40-72): build the prompt, call the LLM service (modelled by the
llmGen oracle, which may raise), post-process, run best-effort persistence,
and stamp the measured wall-clock latency elapsedMs on the response. -/
def generateResponseInner (ctx : ConversationContext)
    (llmGen : LLMRequest → Except String LLMResponse)
    (persistOk : Bool) (elapsedMs : Int) (maxLen : Nat) : Except String AIResponse :=
  match llmGen { prompt := buildPrompt ctx, max_tokens := some maxLen,
                 temperature := 4/5, top_p := 9/10 } with
  | Except.error e => Except.error e
  | Except.ok r =>
    let a := processResponse r ctx.current_character.name maxLen
    let _ := storeConversationContext persistOk
    Except.ok { a with response_time_ms := some elapsedMs }

/-- ConversationService.generate_response (lines 36-77): any exception in
the main generation path is converted into the fallback response, so the
function is total. -/
def generateResponseConv (ctx : ConversationContext)
    (llmGen : LLMRequest → Except String LLMResponse)
    (persistOk : Bool) (elapsedMs : Int) (maxLen : Nat) (pick : Nat) : AIResponse :=
  match generateResponseInner ctx llmGen persistOk elapsedMs maxLen with
  | Except.ok a => a
  | Except.error _ => createFallbackResponse pick

/-! ## Character service (app/services/character_service.py) -/

/-- CharacterService.add_character_memory (character_service.py lines
208-225): construct a CharacterMemory through pydantic validation and store
it; any exception (including a ValidationError) is caught and swallowed.
Returns the list of memories passed to store_character_memory during the
call. -/
def addCharacterMemory (character_id content : String)
    (memory_type : String) (importance_score : ℚ) (now : Int) : List CharacterMemory :=
  match mkCharacterMemory character_id memory_type content importance_score now [] with
  | none => []
  | some m => [m]

/-! ## Vector service (app/services/vector_service.py)

The Pinecone index is external; its state is modelled as a list of stored
vectors and the service methods are modelled by the list of index operations
they issue. -/

structure VectorEntry where
  id : String
  vec : List ℚ
  meta : String
deriving DecidableEq, Repr

/-- Operations issued against the vector index. -/
inductive IndexOp
  | upsert (e : VectorEntry)
  | deleteById (id : String)
deriving DecidableEq, Repr

/-- Index state transition for a single operation (upsert overwrites by
id). -/
def applyOp (st : List VectorEntry) : IndexOp → List VectorEntry
  | IndexOp.upsert e => e :: st.filter (fun x => x.id ≠ e.id)
  | IndexOp.deleteById i => st.filter (fun x => x.id ≠ i)

/-- Index state transition for a sequence of operations. -/
def applyOps (ops : List IndexOp) (st : List VectorEntry) : List VectorEntry :=
  ops.foldl applyOp st

/-- VectorService.delete_character_memories (vector_service.py lines
226-237): Pinecone does not support bulk delete by metadata filter, so the
method only logs the request; it returns the count 0 and issues no index
operation. -/
def deleteCharacterMemories (character_id : String) : Nat × List IndexOp :=
  let _ := character_id
  (0, [])

/-! ### generate_embedding (vector_service.py lines 185-224)

The embedding pipeline hashes the UTF-8 bytes of the text with SHA-256,
decodes the digest four bytes at a time as big-endian float32 values until
the configured dimension is reached, pads with 0.0 / truncates to the
dimension, and normalizes when the norm is positive.  hashlib.sha256 and
IEEE-754 arithmetic are external; the digest function is a parameter, vector
entries are carried as their 32-bit big-endian words (0.0 has word 0), and
the normalization step is parameterised by the norm-positivity test and the
elementwise scaling it applies. -/

/-- Big-endian 32-bit word from four bytes (struct.unpack with format
string of a big-endian float32 reads exactly these bits). -/
def word32 (a b c d : Nat) : Nat :=
  ((a * 256 + b) * 256 + c) * 256 + d

/-- UTF-8 bytes of one character (text.encode()). -/
def utf8Bytes (c : Char) : List Nat :=
  let n := c.toNat
  if n < 128 then [n]
  else if n < 2048 then [192 + n / 64, 128 + n % 64]
  else if n < 65536 then [224 + n / 4096, 128 + n / 64 % 64, 128 + n % 64]
  else [240 + n / 262144, 128 + n / 4096 % 64, 128 + n / 64 % 64, 128 + n % 64]

/-- text.encode(): UTF-8 byte sequence of the string. -/
def pyEncode (s : String) : List Nat :=
  (s.data.map utf8Bytes).flatten

/-- The chunking loop of generate_embedding (lines 199-206): walk the digest
four bytes at a time, stopping as soon as the vector already has dim
entries; a trailing chunk shorter than four bytes is skipped.  k counts the
entries produced so far. -/
def chunkWords (dim : Nat) : List Nat → Nat → List Nat
  | a :: b :: c :: d :: rest, k =>
    if dim ≤ k then [] else word32 a b c d :: chunkWords dim rest (k + 1)
  | _, _ => []

/-- Lines 195-212 of generate_embedding: digest, chunk, pad with 0.0 and
truncate to the configured dimension. -/
def rawEmbedding (sha256 : List Nat → List Nat) (text : String) (dim : Nat) : List Nat :=
  let hashBytes := sha256 (pyEncode text)
  let e := chunkWords dim hashBytes 0
  let e := e ++ List.replicate (dim - e.length) 0
  e.take dim

/-- VectorService.generate_embedding (lines 185-224): the full pipeline.
normPos models the test norm > 0 on the vector and scale models the
elementwise map x ↦ x / norm applied when it holds; both are pure functions
supplied by the float model. -/
def generateEmbedding (sha256 : List Nat → List Nat)
    (normPos : List Nat → Bool) (scale : List Nat → Nat → Nat)
    (text : String) (dim : Nat) : List Nat :=
  let e := rawEmbedding sha256 text dim
  if normPos e then e.map (scale e) else e

/-! ## Helper lemmas -/

/-- selectHealthyProvider scans for the first healthy adapter. -/
lemma selectHealthyProvider_eq_find (ps : List Adapter) :
    selectHealthyProvider ps = ps.find? (fun p => p.healthy) := by
  induction ps with
  | nil => rfl
  | cons p ps ih =>
    by_cases h : p.healthy
    · simp [selectHealthyProvider, List.find?, h]
    · simp [selectHealthyProvider, List.find?, h, ih]

/-- If every adapter is unhealthy, selection yields none. -/
lemma selectHealthyProvider_eq_none {ps : List Adapter}
    (h : ∀ p ∈ ps, p.healthy = false) : selectHealthyProvider ps = none := by
  rw [selectHealthyProvider_eq_find]
  exact List.find?_eq_none.mpr (fun p hp => by simp [h p hp])

/-- The generate attempts made by the failover loop form a sublist of the
provider ids in list order: each list position is attempted at most once
inside the loop. -/
lemma failoverLoop_attempts_sublist (ps : List Adapter) (cur : Adapter) :
    List.Sublist (failoverLoop ps cur).1 (ps.map Adapter.id) := by
  induction ps generalizing cur with
  | nil => simp [failoverLoop]
  | cons p ps ih =>
    unfold failoverLoop
    by_cases h1 : p.id = cur.id
    · simpa [h1] using (ih cur).cons p.id
    · by_cases h2 : p.healthy
      · by_cases h3 : p.genOk
        · simp only [h1, h2, h3, if_true, if_false, ite_false, ite_true, List.map_cons]
          exact (List.nil_sublist (ps.map Adapter.id)).cons₂ p.id
        · simpa [h1, h2, h3] using (ih p).cons₂ p.id
      · simpa [h1, h2] using (ih cur).cons p.id

/-- Under distinct provider ids, the failover loop attempts each adapter at
most once. -/
lemma failoverLoop_count_le_one (providers : List Adapter) (cur : Adapter)
    (hnd : (providers.map Adapter.id).Nodup) (n : Nat) :
    ((failoverLoop providers cur).1.count n) ≤ 1 :=
  le_trans ((failoverLoop_attempts_sublist providers cur).count_le n)
    (List.nodup_iff_count_le_one.mp hnd n)

/-! ## Claim theorems: LLM provider selection and failover -/

/-- C4: After LLMService._select_healthy_provider runs, the current provider
equals the first adapter in the ordered provider list whose is_healthy()
returns true; if no adapter is healthy, the current provider is unset
(None).  In particular, when all remote adapters are unhealthy and the local
fallback adapter is healthy, the fallback adapter is selected. -/
theorem select_healthy_provider_first_healthy :
    (∀ ps : List Adapter, selectHealthyProvider ps = ps.find? (fun p => p.healthy))
    ∧ (∀ ps : List Adapter, (∀ p ∈ ps, p.healthy = false) →
        selectHealthyProvider ps = none)
    ∧ (∀ gem oai ant hf : Adapter, gem.healthy = false → oai.healthy = false →
        ant.healthy = false → hf.healthy = true →
        selectHealthyProvider [gem, oai, ant, hf] = some hf) := by
  refine ⟨selectHealthyProvider_eq_find, fun ps h => selectHealthyProvider_eq_none h, ?_⟩
  intro gem oai ant hf h1 h2 h3 h4
  simp [selectHealthyProvider, h1, h2, h3, h4]

/-- Witness for C4: three unhealthy remote adapters and a healthy fallback
adapter; selection picks the fallback. -/
theorem select_healthy_provider_first_healthy_witness :
    selectHealthyProvider
      [⟨0, false, false⟩, ⟨1, false, false⟩, ⟨2, false, false⟩, ⟨3, true, true⟩]
      = some ⟨3, true, true⟩ :=
  select_healthy_provider_first_healthy.2.2 _ _ _ _ rfl rfl rfl rfl

/-- C5: If the current provider is unset and every adapter's health check
returns false, LLMService.generate_response fails with the "no healthy
provider" error and generate is not invoked on any adapter (the attempt
list is empty). -/
theorem generate_response_no_healthy_provider (providers : List Adapter)
    (h : ∀ p ∈ providers, p.healthy = false) :
    generateResponseLLM providers none = ([], GenOutcome.noHealthyProvider) := by
  simp [generateResponseLLM, selectHealthyProvider_eq_none h]

/-- Witness for C5: two unhealthy adapters, no current provider. -/
theorem generate_response_no_healthy_provider_witness :
    generateResponseLLM [⟨0, false, true⟩, ⟨1, false, true⟩] none
      = ([], GenOutcome.noHealthyProvider) :=
  generate_response_no_healthy_provider _ (by decide)

/-- Counterexample for C2: with providers [A, B] (ids 0 and 1), both healthy
but both failing to generate, and current provider B, the call attempts B,
then promotes A which also fails, and then attempts B a second time (B is no
longer equal to the mutated current pointer).  The adapter that just failed
is attempted twice in one request. -/
theorem failover_reattempts_failed_provider :
    (generateResponseLLM [⟨0, true, false⟩, ⟨1, true, false⟩]
        (some ⟨1, true, false⟩)).1 = [1, 0, 1]
    ∧ ((generateResponseLLM [⟨0, true, false⟩, ⟨1, true, false⟩]
        (some ⟨1, true, false⟩)).1.count 1) = 2 := by
  constructor <;> decide

/-- C2 (amended): Within a single call to LLMService.generate_response with
duplicate-free providers, every adapter other than the initial current
provider is attempted at most once; the initial current provider is
attempted at most twice (once up front, and possibly once more inside the
failover loop after a different promoted adapter also failed). -/
theorem failover_attempt_bounds (providers : List Adapter) (cur : Adapter)
    (hnd : (providers.map Adapter.id).Nodup) (n : Nat) :
    ((generateResponseLLM providers (some cur)).1.count n)
      ≤ if n = cur.id then 2 else 1 := by
  have key := failoverLoop_count_le_one providers cur hnd n
  by_cases hg : cur.genOk
  · by_cases hn : n = cur.id <;>
      simp [generateResponseLLM, hg, hn, List.count_cons]
  · by_cases hn : n = cur.id
    · subst hn
      simp only [generateResponseLLM, hg, if_false, if_pos rfl]
      simp [List.count_cons]
      omega
    · simp [generateResponseLLM, hg, hn, List.count_cons]
      exact key

/-- Witness for C2 (amended): a backup adapter distinct from the failed
current provider is attempted at most once. -/
theorem failover_attempt_bounds_witness :
    ((generateResponseLLM [⟨0, true, true⟩, ⟨1, true, false⟩]
        (some ⟨1, true, false⟩)).1.count 0) ≤ 1 := by
  simpa using failover_attempt_bounds [⟨0, true, true⟩, ⟨1, true, false⟩]
    ⟨1, true, false⟩ (by decide) 0

/-! ## String helper lemmas -/

lemma string_data_append (a b : String) : (a ++ b).data = a.data ++ b.data := by
  cases a
  cases b
  rfl

lemma string_append_empty (s : String) : s ++ "" = s := by
  cases s with
  | mk d =>
    show String.mk (d ++ []) = String.mk d
    rw [List.append_nil]

lemma string_append_assoc (a b c : String) : a ++ b ++ c = a ++ (b ++ c) := by
  cases a with
  | mk la =>
    cases b with
    | mk lb =>
      cases c with
      | mk lc =>
        show String.mk (la ++ lb ++ lc) = String.mk (la ++ (lb ++ lc))
        rw [List.append_assoc]

lemma string_length_append (a b : String) : (a ++ b).length = a.length + b.length := by
  cases a with
  | mk la =>
    cases b with
    | mk lb =>
      show (la ++ lb).length = la.length + lb.length
      exact List.length_append la lb

lemma pyTake_length (s : String) (n : Nat) : (pyTake s n).length = min n s.length := by
  cases s with
  | mk l =>
    show (l.take n).length = min n l.length
    exact List.length_take n l

/-- The transcript accumulation loop is the header followed by the rendered
messages in order. -/
lemma foldl_renderMsg (l : List Message) (init : String) :
    l.foldl (fun acc m => acc ++ renderMsg m) init = init ++ renderMsgs l := by
  induction l generalizing init with
  | nil => simp [renderMsgs, string_append_empty]
  | cons m ms ih =>
    simp only [List.foldl_cons, renderMsgs]
    rw [ih, string_append_assoc]

/-! ## Claim theorems: prompt transcript and response truncation -/

/-- C3: For a ConversationContext with a non-empty recent_messages list of
length N, the transcript section of the prompt built by _build_prompt is the
header followed by the rendering of exactly the last min(10, N) messages, in
their original order, each rendered as "<character-id>: <content>"; for
N > 10 that slice has exactly 10 messages and for N ≤ 10 it is the whole
list. -/
theorem build_prompt_transcript_last_ten (ctx : ConversationContext)
    (h : ctx.recent_messages ≠ []) :
    messagesContext ctx
      = "\nRecent conversation:\n" ++ renderMsgs (pyLastSlice 10 ctx.recent_messages)
    ∧ List.IsSuffix (pyLastSlice 10 ctx.recent_messages) ctx.recent_messages
    ∧ (10 < ctx.recent_messages.length →
        (pyLastSlice 10 ctx.recent_messages).length = 10)
    ∧ (ctx.recent_messages.length ≤ 10 →
        pyLastSlice 10 ctx.recent_messages = ctx.recent_messages) := by
  refine ⟨?_, ?_, ?_, ?_⟩
  · cases hm : ctx.recent_messages with
    | nil => exact absurd hm h
    | cons a l =>
      simp only [messagesContext, hm]
      rw [← hm, foldl_renderMsg]
  · exact List.drop_suffix _ _
  · intro h10
    simp only [pyLastSlice, List.length_drop]
    omega
  · intro h10
    simp only [pyLastSlice, Nat.sub_eq_zero_of_le h10, List.drop_zero]

/-- A concrete context with twelve recent messages for the C3 witness. -/
def transcriptCtx : ConversationContext :=
  { group := { id := "g1", name := "Test" }
    current_character := { id := "c0", name := "Nova" }
    recent_messages := (List.range 12).map (fun i =>
      { id := toString i, group_id := "g1", character_id := "c" ++ toString i,
        content := "hello " ++ toString i }) }

/-- Witness for C3: with twelve recent messages the transcript block renders
exactly the last ten in order. -/
theorem build_prompt_transcript_last_ten_witness :
    messagesContext transcriptCtx
      = "\nRecent conversation:\n"
        ++ renderMsgs (pyLastSlice 10 transcriptCtx.recent_messages)
    ∧ (10 < transcriptCtx.recent_messages.length →
        (pyLastSlice 10 transcriptCtx.recent_messages).length = 10) :=
  ⟨(build_prompt_transcript_last_ten transcriptCtx (by decide)).1,
   (build_prompt_transcript_last_ten transcriptCtx (by decide)).2.2.1⟩

/-- C6: In _process_response, if the cleaned content is longer than the
configured maximum response length, the resulting content is exactly the
first maxLen characters followed by the 3-character marker "..." (total
length maxLen + 3); content not exceeding the limit is left unchanged. -/
theorem process_response_truncation (llm : LLMResponse) (characterName : String)
    (maxLen : Nat) :
    (maxLen < (cleanContent characterName llm.content).length →
      (processResponse llm characterName maxLen).content
        = pyTake (cleanContent characterName llm.content) maxLen ++ "..."
      ∧ (processResponse llm characterName maxLen).content.length = maxLen + 3)
    ∧ ((cleanContent characterName llm.content).length ≤ maxLen →
      (processResponse llm characterName maxLen).content
        = cleanContent characterName llm.content) := by
  constructor
  · intro h
    have hc : (processResponse llm characterName maxLen).content
        = pyTake (cleanContent characterName llm.content) maxLen ++ "..." := by
      simp [processResponse, h]
    refine ⟨hc, ?_⟩
    rw [hc, string_length_append, pyTake_length,
      Nat.min_eq_left (le_of_lt h)]
    have hdots : ("..." : String).length = 3 := by decide
    rw [hdots]
  · intro h
    simp [processResponse, Nat.not_lt.mpr h]

/-- A concrete raw LLM response whose cleaned content has 13 characters,
used by the C6 witness. -/
def truncLLMResponse : LLMResponse :=
  { content := "  Hello, world!  ", model := "m", response_time_ms := 0 }

/-- Witness for C6: a 13-character cleaned content truncated at 5 characters
has exactly 8 characters ending in the marker. -/
theorem process_response_truncation_witness :
    (processResponse truncLLMResponse "Bob" 5).content
      = pyTake (cleanContent "Bob" "  Hello, world!  ") 5 ++ "..."
    ∧ (processResponse truncLLMResponse "Bob" 5).content.length = 5 + 3 :=
  (process_response_truncation truncLLMResponse "Bob" 5).1 (by decide)

/-! ## Claim theorems: orchestrator fallback and persistence -/

/-- Whatever index random.choice picks, the fallback content is one of the
fixed stock replies. -/
lemma createFallbackResponse_content_mem (pick : Nat) :
    (createFallbackResponse pick).content ∈ fallbackResponses := by
  have hb : ∀ i, i < fallbackResponses.length →
      fallbackResponses.getD i "" ∈ fallbackResponses := by decide
  exact hb (pick % fallbackResponses.length)
    (Nat.mod_lt _ (by decide))

/-- C1: ConversationService.generate_response is total (never raises): it is
a function into AIResponse, and whenever the main generation path (prompt
build, provider call, post-processing) fails, it returns a fallback response
whose content is one of the fixed stock replies, whose metadata has
fallback = true, and whose confidence is at most 0.2. -/
theorem generate_response_fallback (ctx : ConversationContext)
    (llmGen : LLMRequest → Except String LLMResponse)
    (persistOk : Bool) (elapsedMs : Int) (maxLen : Nat) (pick : Nat) (msg : String)
    (h : generateResponseInner ctx llmGen persistOk elapsedMs maxLen
      = Except.error msg) :
    (generateResponseConv ctx llmGen persistOk elapsedMs maxLen pick).content
      ∈ fallbackResponses
    ∧ (generateResponseConv ctx llmGen persistOk elapsedMs maxLen pick).metadata.fallback
      = true
    ∧ ∃ c : ℚ,
        (generateResponseConv ctx llmGen persistOk elapsedMs maxLen pick).confidence
          = some c
        ∧ c ≤ 1/5 := by
  have hconv : generateResponseConv ctx llmGen persistOk elapsedMs maxLen pick
      = createFallbackResponse pick := by
    simp [generateResponseConv, h]
  rw [hconv]
  exact ⟨createFallbackResponse_content_mem pick, rfl, 1/10, rfl, by norm_num⟩

/-- A minimal concrete conversation context shared by the orchestrator
witnesses. -/
def emptyCtx : ConversationContext :=
  { group := { id := "g", name := "G" }
    current_character := { id := "c", name := "Nova" } }

/-- Witness for C1: an LLM service whose generate call raises leads to a
stock fallback reply flagged fallback = true with confidence at most 0.2. -/
theorem generate_response_fallback_witness :
    (generateResponseConv emptyCtx (fun _ => Except.error "provider down")
        true 0 500 3).content ∈ fallbackResponses
    ∧ (generateResponseConv emptyCtx (fun _ => Except.error "provider down")
        true 0 500 3).metadata.fallback = true
    ∧ ∃ c : ℚ,
        (generateResponseConv emptyCtx (fun _ => Except.error "provider down")
          true 0 500 3).confidence = some c
        ∧ c ≤ 1/5 :=
  generate_response_fallback emptyCtx (fun _ => Except.error "provider down")
    true 0 500 3 "provider down" rfl

/-- C7: If the LLM call succeeds, the response returned by
ConversationService.generate_response is the post-processed LLM response
with the measured latency stamped on it, regardless of whether the
memory/summary persistence step raises (persistOk = false) or succeeds; in
particular it is not the fallback response and no error is surfaced. -/
theorem persistence_failure_keeps_response (ctx : ConversationContext)
    (llmGen : LLMRequest → Except String LLMResponse)
    (persistOk : Bool) (elapsedMs : Int) (maxLen : Nat) (pick : Nat) (r : LLMResponse)
    (h : llmGen { prompt := buildPrompt ctx, max_tokens := some maxLen,
                  temperature := 4/5, top_p := 9/10 } = Except.ok r) :
    generateResponseConv ctx llmGen persistOk elapsedMs maxLen pick
      = { processResponse r ctx.current_character.name maxLen with
          response_time_ms := some elapsedMs }
    ∧ (generateResponseConv ctx llmGen persistOk elapsedMs maxLen pick).metadata.fallback
      = false := by
  have heq : generateResponseConv ctx llmGen persistOk elapsedMs maxLen pick
      = { processResponse r ctx.current_character.name maxLen with
          response_time_ms := some elapsedMs } := by
    simp [generateResponseConv, generateResponseInner, h]
  refine ⟨heq, ?_⟩
  rw [heq]
  simp [processResponse]

/-- A concrete successful LLM response shared by the C7 witness. -/
def okLLMResponse : LLMResponse :=
  { content := "Hi there", model := "gemini-pro", response_time_ms := 42 }

/-- Witness for C7: with a succeeding LLM call and a failing persistence
step (persistOk = false), the returned response is the post-processed LLM
response, not the fallback. -/
theorem persistence_failure_keeps_response_witness :
    generateResponseConv emptyCtx (fun _ => Except.ok okLLMResponse) false 7 500 0
      = { processResponse okLLMResponse emptyCtx.current_character.name 500 with
          response_time_ms := some 7 }
    ∧ (generateResponseConv emptyCtx (fun _ => Except.ok okLLMResponse)
        false 7 500 0).metadata.fallback = false :=
  persistence_failure_keeps_response emptyCtx (fun _ => Except.ok okLLMResponse)
    false 7 500 0 okLLMResponse rfl

/-! ## Claim theorems: vector service and memory model -/

/-- C8: VectorService.delete_character_memories returns the count 0 and
issues no index operation, so any index state is left unchanged. -/
theorem delete_character_memories_noop (cid : String) (st : List VectorEntry) :
    (deleteCharacterMemories cid).1 = 0
    ∧ (deleteCharacterMemories cid).2 = []
    ∧ applyOps (deleteCharacterMemories cid).2 st = st :=
  ⟨rfl, rfl, rfl⟩

/-- A validated CharacterMemory carries an importance score in [0, 1]. -/
lemma mkCharacterMemory_importance_range {cid mt content : String} {s : ℚ}
    {t : Int} {md : List (String × String)} {m : CharacterMemory}
    (hm : mkCharacterMemory cid mt content s t md = some m) :
    0 ≤ m.importance_score ∧ m.importance_score ≤ 1 := by
  by_cases hs : 0 ≤ s ∧ s ≤ 1
  · rw [mkCharacterMemory, if_pos hs] at hm
    cases hm
    exact hs
  · rw [mkCharacterMemory, if_neg hs] at hm
    cases hm

/-- C9: Constructing a CharacterMemory with importance_score outside [0, 1]
is rejected by the pydantic validator, so every successfully constructed
memory — in particular every memory passed to store_character_memory by
add_character_memory — carries an importance_score within [0, 1]. -/
theorem character_memory_importance_in_range :
    (∀ (cid mt content : String) (s : ℚ) (t : Int)
        (md : List (String × String)) (m : CharacterMemory),
      mkCharacterMemory cid mt content s t md = some m →
      0 ≤ m.importance_score ∧ m.importance_score ≤ 1)
    ∧ (∀ (cid content mt : String) (s : ℚ) (now : Int) (m : CharacterMemory),
      m ∈ addCharacterMemory cid content mt s now →
      0 ≤ m.importance_score ∧ m.importance_score ≤ 1) := by
  constructor
  · intro cid mt content s t md m hm
    exact mkCharacterMemory_importance_range hm
  · intro cid content mt s now m hm
    unfold addCharacterMemory at hm
    revert hm
    cases hmk : mkCharacterMemory cid mt content s now [] with
    | none =>
      intro hm
      cases hm
    | some m0 =>
      intro hm
      have hm0 : m = m0 := by simpa using hm
      subst hm0
      exact mkCharacterMemory_importance_range hmk

/-- The concrete memory produced by the C9 witness. -/
def sampleMemory : CharacterMemory :=
  { character_id := "c1", memory_type := "conversation", content := "hello",
    importance_score := 7/10, created_at := 0, metadata := [] }

/-- Witness for C9: a memory validated with score 0.7 is in range. -/
theorem character_memory_importance_in_range_witness :
    0 ≤ sampleMemory.importance_score ∧ sampleMemory.importance_score ≤ 1 :=
  character_memory_importance_in_range.1 "c1" "conversation" "hello" (7/10) 0 []
    sampleMemory (by
      have hc : (0:ℚ) ≤ 7/10 ∧ (7/10:ℚ) ≤ 1 := by norm_num
      rw [mkCharacterMemory, if_pos hc]
      rfl)

/-- The chunked, padded and truncated vector always has exactly the
configured dimension. -/
lemma rawEmbedding_length (sha256 : List Nat → List Nat) (text : String)
    (dim : Nat) : (rawEmbedding sha256 text dim).length = dim := by
  simp only [rawEmbedding, List.length_take, List.length_append,
    List.length_replicate]
  omega

/-- C10: VectorService.generate_embedding is deterministic and
dimension-exact: with the hash function, the norm test and the elementwise
normalization scaling fixed (they are pure library functions), two calls
with the same text and the same configured dimension return identical
vectors, and the returned vector has exactly the configured number of
entries. -/
theorem generate_embedding_deterministic_and_dim
    (sha256 : List Nat → List Nat) (normPos : List Nat → Bool)
    (scale : List Nat → Nat → Nat) (t₁ t₂ : String) (dim : Nat)
    (h : t₁ = t₂) :
    generateEmbedding sha256 normPos scale t₁ dim
      = generateEmbedding sha256 normPos scale t₂ dim
    ∧ (generateEmbedding sha256 normPos scale t₁ dim).length = dim := by
  subst h
  refine ⟨rfl, ?_⟩
  unfold generateEmbedding
  by_cases hn : normPos (rawEmbedding sha256 t₁ dim)
  · simp [hn, rawEmbedding_length]
  · simp [hn, rawEmbedding_length]

/-- Witness for C10: a concrete digest model, dimension 8. -/
theorem generate_embedding_deterministic_and_dim_witness :
    generateEmbedding (fun _ => List.replicate 32 0) (fun _ => false)
        (fun _ x => x) "hello" 8
      = generateEmbedding (fun _ => List.replicate 32 0) (fun _ => false)
        (fun _ x => x) "hello" 8
    ∧ (generateEmbedding (fun _ => List.replicate 32 0) (fun _ => false)
        (fun _ x => x) "hello" 8).length = 8 :=
  generate_embedding_deterministic_and_dim (fun _ => List.replicate 32 0)
    (fun _ => false) (fun _ x => x) "hello" "hello" 8 rfl

end WhatsAppAI
